import Mathlib

/-!
Verification of the bug delta/diff engine and task annotation model of the
`ubuntu-server-triage` tool (`ustriage/ustriage.py` and `ustriage/task.py`).

Conventions of the shallow embedding:
* Calendar dates are modelled as integers counting days, with day 0 chosen to
  be a Monday, so that `weekday d = d % 7` agrees with Python's
  `datetime.date.weekday()` (Monday = 0 .. Sunday = 6).
* Timestamps of bug messages are modelled as integers counting minutes, so
  Python's `timedelta(hours=1)` is the constant 60.
* Python exceptions are modelled with `Except PyErr`; a Python function that
  can raise returns `Except PyErr α`.
* Launchpad (the remote bug tracking service) is an external collaborator:
  its query results appear as explicit inputs (association lists keyed by
  `self_link`, lists of messages, lists of sub-task records).
-/

namespace Ustriage

/-- Python exceptions relevant to the verified code paths. -/
inductive PyErr where
  | typeError
  | indexError
deriving DecidableEq, Repr

/-! ## Python string primitives

`str.split(sep)` with an explicit one-character separator, and
`str.replace(old, '')` for a one-character `old`, are re-implemented by
structural recursion over the character list so that the kernel can evaluate
them (they match CPython's semantics for these call shapes). -/

/-- Split a character list at every occurrence of `sep` (CPython
`str.split(sep)` semantics: `n` separators yield `n+1` fields, empty fields
are kept). -/
def splitChars (sep : Char) : List Char → List (List Char)
  | [] => [[]]
  | c :: rest =>
      let r := splitChars sep rest
      if c = sep then [] :: r
      else
        match r with
        | [] => [[c]]
        | g :: gs => (c :: g) :: gs

/-- Python `s.split(sep)` for a single-character separator. -/
def py_split (s : String) (sep : Char) : List String :=
  (splitChars sep s.data).map (fun l => String.mk l)

/-- Python `s.replace(old, '')` for a single-character `old`. -/
def py_remove_char (s : String) (old : Char) : String :=
  String.mk (s.data.filter (fun c => c ≠ old))

/-- Python `'%-ns' % s`: pad `s` with spaces on the right to width `n`. -/
def padRight (s : String) (n : Nat) : String :=
  s ++ String.mk (List.replicate (n - s.length) ' ')

/-! ## Date range resolver (`ustriage/ustriage.py`, `auto_date_range` and
`reverse_auto_date_range`) -/

/-- Python `date.weekday()`: Monday = 0 .. Sunday = 6 (day 0 is a Monday). -/
def weekday (d : Int) : Int := d % 7

/-- Weekday number extracted from the user keyword, as
`dateutil.parser.parse(keyword, ignoretz=True).weekday()` computes it for the
day-of-week keywords accepted by the triage process. -/
def parse_weekday (s : String) : Option Int :=
  if s = "mon" ∨ s = "monday" then some 0
  else if s = "tue" ∨ s = "tuesday" then some 1
  else if s = "wed" ∨ s = "wednesday" then some 2
  else if s = "thu" ∨ s = "thursday" then some 3
  else if s = "fri" ∨ s = "friday" then some 4
  else if s = "sat" ∨ s = "saturday" then some 5
  else if s = "sun" ∨ s = "sunday" then some 6
  else none

/-- `auto_date_range(keyword, today)` (ustriage.py lines 154-191).
`today + relativedelta(weekday=weekday(w, -1))` is the latest date that is
`≤ today` and falls on weekday `w`, i.e. `today - (today - w) % 7`;
`FR(-1)`/`SU(-1)` from a date `d` are `d - (d - 4) % 7` / `d - (d - 6) % 7`.
The `ValueError` raised for Saturday/Sunday keywords (the spec's
`InvalidDateRange`) is the `.error` branch. -/
def auto_date_range (keyword : String) (today : Int) : Except String (Int × Int) :=
  match parse_weekday keyword with
  | none => .error ("Cannot parse date: " ++ keyword)
  | some w =>
    let last_occurrence := today - (today - w) % 7
    if w = 5 ∨ w = 6 then
      .error "No triage range is specified for weekday triage"
    else if weekday last_occurrence ≠ 0 then
      .ok (last_occurrence - 1, last_occurrence - 1)
    else
      .ok (last_occurrence - (last_occurrence - 4) % 7,
           last_occurrence - (last_occurrence - 6) % 7)

/-- The day names indexed by `start.weekday()` in `reverse_auto_date_range`
(ustriage.py line 222). -/
def triage_day_names : List String := ["Tuesday", "Wednesday", "Thursday", "Friday"]

/-- `reverse_auto_date_range(start, end)` (ustriage.py lines 194-225). -/
def reverse_auto_date_range (start e : Int) : Option String :=
  if start > e then none
  else if e - start > 2 then none
  else if weekday start = 4 ∧ weekday e = 6 then some "Monday triage"
  else if start = e then
    if weekday start = 4 ∨ weekday start = 5 ∨ weekday start = 6 then none
    else (triage_day_names.get? (weekday start).toNat).map (fun day => day ++ " triage")
  else none

/-- Name of weekday `w` (Monday = 0), used to state the round-trip property. -/
def weekday_label (w : Int) : String :=
  (["Monday", "Tuesday", "Wednesday", "Thursday", "Friday"]).getD w.toNat ""

/-! ## Data model

Projections of the launchpadlib objects the verified code reads. A bug
message carries its creation time and its owner; resolving the owner of a
message whose account was suspended fails with an HTTP 410 `ClientError`,
modelled by the `owner_gone` flag. A person is identified by their
`self_link`, so a set of Launchpad persons is modelled as the list of their
`self_link` strings. -/

/-- One entry of `task.bug.messages`. -/
structure Message where
  date_created : Int
  owner_link : String
  owner_gone : Bool
deriving DecidableEq, Repr

/-- One entry of `task.bug.bug_tasks`: `str(task)` is its URL. -/
structure SubTask where
  url : String
  status : String
deriving DecidableEq, Repr

/-- Projection of a launchpadlib bug task object (the fields read by the
verified code). -/
structure LPTask where
  self_link : String
  title : String
  status : String
  date_last_updated : Int
  assignee_link : String
  messages : List Message
  bug_tasks : List SubTask
deriving DecidableEq, Repr

/-- The script's own `Task` wrapper (`ustriage/task.py`): the launchpadlib
object plus the two caller-set annotation flags. -/
structure Task where
  obj : LPTask
  subscribed : Bool
  last_activity_ours : Bool
deriving DecidableEq, Repr

/-- `Task.number` (task.py line 157): `self.title.split(' ')[1].replace('#', '')`
(for the well-formed titles Launchpad returns; a malformed short title would
raise in Python where `getD` returns `""`). -/
def Task.number (t : Task) : String :=
  py_remove_char ((py_split t.obj.title ' ').getD 1 "") '#'

/-- `Task.src` (task.py line 183): `self.title.split(' ')[3]`. -/
def Task.src (t : Task) : String :=
  (py_split t.obj.title ' ').getD 3 ""

/-- `Task.sort_key` (task.py lines 370-372):
`(not self.last_activity_ours, self.number, self.src)`. -/
def Task.sort_key (t : Task) : Bool × String × String :=
  (!t.last_activity_ours, t.number, t.src)

/-- `Task.sort_date` (task.py lines 374-376): `self.date_last_updated`. -/
def Task.sort_date (t : Task) : Int :=
  t.obj.date_last_updated

/-! ## `last_activity_ours` (ustriage.py lines 418-468) -/

/-- The bounded message window
`task.bug.messages[last_msgs_start:last_msgs_end]` with
`last_msgs_end = len(messages)` and
`last_msgs_start = 0 if last_msgs_end < 3 else last_msgs_end - 3`. -/
def activity_window (msgs : List Message) : List Message :=
  msgs.drop (if msgs.length < 3 then 0 else msgs.length - 3)

/-- The `(date, owner link)` pairs collected from the window, skipping
messages whose owner resolution fails with HTTP 410. -/
def activity_list (msgs : List Message) : List (Int × String) :=
  (activity_window msgs).filterMap (fun m =>
    if m.owner_gone then none else some (m.date_created, m.owner_link))

/-- `last_activity_ours(task, activitysubscribers)`: `activity_list.pop()` on
an empty list raises `IndexError`; otherwise everything of the remaining
list (iterated in reverse) not older than one hour before the popped most
recent activity is collected, and the flag is whether all of it was done by
`subs`. Timestamps are in minutes, so one hour is 60. -/
def last_activity_ours (msgs : List Message) (subs : List String) : Except PyErr Bool :=
  if subs.isEmpty then .ok false
  else
    match (activity_list msgs).getLast? with
    | none => .error PyErr.indexError
    | some most_recent =>
      .ok ((most_recent ::
          ((activity_list msgs).dropLast.reverse.takeWhile
            (fun a => !decide (a.1 < most_recent.1 - 60)))).all
          (fun a => subs.contains a.2))

/-- Stable insertion into a list sorted by ascending timestamp. -/
def insert_by_date (a : Int × String) : List (Int × String) → List (Int × String)
  | [] => [a]
  | b :: rest => if a.1 ≤ b.1 then a :: b :: rest else b :: insert_by_date a rest

/-- Stable sort by ascending timestamp ("sort by creation time"). -/
def sort_by_date : List (Int × String) → List (Int × String)
  | [] => []
  | a :: rest => insert_by_date a (sort_by_date rest)

/-- Back-to-front accretion: starting from the previously included activity,
keep an earlier activity whenever it is within one hour of the immediately
following (already included) one, updating the reference point each step. -/
def accrete_burst : (Int × String) → List (Int × String) → List (Int × String)
  | _, [] => []
  | prev, a :: rest =>
      if a.1 < prev.1 - 60 then []
      else a :: accrete_burst a rest

/-- The activity flag as claim C4 describes it (for comparison with
`last_activity_ours`): messages sorted by creation time, the most recent one
is the anchor, the burst accretes back-to-front relative to the
immediately-following message (not a fixed window from the anchor), and the
flag holds iff every identity in the burst is ours, with an empty identity
set always giving `false`. -/
def last_activity_ours_spec (msgs : List Message) (subs : List String) : Bool :=
  if subs.isEmpty then false
  else
    match (sort_by_date (activity_list msgs)).getLast? with
    | none => false
    | some anchor =>
      ((anchor :: accrete_burst anchor
          (sort_by_date (activity_list msgs)).dropLast.reverse)).all
        (fun a => subs.contains a.2)

/-! ## Bug delta computation (`create_bug_list`, ustriage.py lines 471-570)

The two point-in-time snapshots returned by the remote service are Python
dicts keyed by `task.self_link`; they are modelled as association lists. -/

/-- The date-bounded delta (ustriage.py lines 534-537):
`{link: task for link, task in bugs_since_start.items() if link not in bugs_since_end}`. -/
def bugs_in_range (bugs_since_start bugs_since_end : List (String × LPTask)) :
    List (String × LPTask) :=
  bugs_since_start.filter (fun p => !((bugs_since_end.map Prod.fst).contains p.1))

/-- The final comprehension of `create_bug_list` (ustriage.py lines 561-568):
each delta entry becomes a `Task` whose `subscribed` flag records membership
of its link in the `already_sub_since_start` dict and whose
`last_activity_ours` flag comes from the message history; a raised exception
propagates. -/
def build_tasks (already_sub : List (String × LPTask)) (subs : List String) :
    List (String × LPTask) → Except PyErr (List Task)
  | [] => .ok []
  | p :: rest =>
    match last_activity_ours p.2.messages subs with
    | .error e => .error e
    | .ok lao =>
      match build_tasks already_sub subs rest with
      | .error e => .error e
      | .ok ts =>
        .ok ({ obj := p.2,
               subscribed := (already_sub.map Prod.fst).contains p.1,
               last_activity_ours := lao } :: ts)

/-- The date-bounded branch of `create_bug_list`, from the three fetched
snapshots (since start, since end, already-subscribed-since-start) to the
resulting task list. -/
def create_bug_list_range (A B S : List (String × LPTask)) (subs : List String) :
    Except PyErr (List Task) :=
  build_tasks S subs (bugs_in_range A B)

/-- Forget the `subscribed` annotation of a task. -/
def erase_subscribed (t : Task) : Task :=
  { t with subscribed := false }

/-! ## Concrete sample inputs for witnesses and counterexamples -/

/-- Three-message history: an outsider comment, then two of ours 55 minutes
apart, the last two within the fixed one-hour window of the most recent
message but the first within one hour of the second only. -/
def c4_msgs : List Message :=
  [{ date_created := 0, owner_link := "other", owner_gone := false },
   { date_created := 55, owner_link := "us", owner_gone := false },
   { date_created := 110, owner_link := "us", owner_gone := false }]

/-- A single-message history by us. -/
def c4_single : List Message :=
  [{ date_created := 0, owner_link := "us", owner_gone := false }]

/-! ## Release characters (`Task.get_releases`, task.py lines 254-299) -/

/-- Terminal colour escapes (task.py lines 37-40). -/
def COLOR_CYAN : String := "\x1b[0;36m"

def COLOR_GREEN : String := "\x1b[0;32m"

def COLOR_YELLOW : String := "\x1b[0;33m"

def COLOR_RESET : String := "\x1b[0m"

/-- `mark(text, color)` (task.py lines 52-54). -/
def mark (text color : String) : String :=
  color ++ text ++ COLOR_RESET

/-- The `Task.NOWORK_BUG_STATUSES` class attribute (task.py line 107); it is
initialised to the empty list and never assigned anywhere in the
repository. -/
def Task.NOWORK_BUG_STATUSES : List String := []

/-- The `Task.OPEN_BUG_STATUSES` class attribute (task.py line 108); it is
initialised to the empty list and never assigned anywhere in the
repository. -/
def Task.OPEN_BUG_STATUSES : List String := []

/-- The module-level `OPEN_BUG_STATUSES` list (ustriage.py lines 69-75): the
non-terminal lifecycle states. -/
def OPEN_BUG_STATUSES : List String :=
  ["New", "Confirmed", "Triaged", "In Progress", "Fix Committed"]

/-- `Task.get_releases(self, length)` (task.py lines 254-299). The remote
`_is_in_unapproved` query (task.py lines 226-252, a sequence of launchpadlib
calls against the external service) is abstracted by the `unapproved`
oracle; it is only consulted for non-development release characters. -/
def Task.get_releases (t : Task) (unapproved : String → Bool) (length : Nat) : String :=
  let release_info := t.obj.bug_tasks.foldl (fun acc task =>
    let task_elements := py_split task.url '/'
    if task_elements.getD 4 "" ≠ "ubuntu" then acc
    else if task_elements.getD (task_elements.length - 3) "" ≠ t.src then acc
    else
      let series := task_elements.getD 5 ""
      let release_char :=
        Char.toUpper (if series.front = '+' then 'd' else series.front)
      let marked :=
        if Task.NOWORK_BUG_STATUSES.contains task.status then
          mark (String.singleton release_char) COLOR_GREEN
        else if (!decide (release_char = 'd' ∨ release_char = 'D')) &&
            unapproved series then
          mark (String.singleton release_char) COLOR_CYAN
        else if Task.OPEN_BUG_STATUSES.contains task.status then
          mark (String.singleton release_char) COLOR_YELLOW
        else
          String.singleton release_char
      acc ++ marked) ""
  let printable := release_info.data.filter (fun c => decide ('A' ≤ c ∧ c ≤ 'Z'))
  release_info ++ String.mk (List.replicate (length - printable.length) ' ')

/-- A development-series ("+source") sub-task in status "New". -/
def c5_sub : SubTask :=
  { url := "https://api.launchpad.net/devel/ubuntu/+source/foo/+bug/1000000",
    status := "New" }

/-- A task on package "foo" whose bug carries the single sub-task `c5_sub`. -/
def c5_task : Task :=
  { obj := { self_link := "https://api.launchpad.net/devel/ubuntu/+source/foo/+bug/1000000",
             title := "Bug #1000000 in foo (Ubuntu): \x22example title\x22",
             status := "New",
             date_last_updated := 0,
             assignee_link := "",
             messages := [],
             bug_tasks := [c5_sub] },
    subscribed := false,
    last_activity_ours := false }

/-! ## Report renderer sorting (`print_bugs`, ustriage.py lines 341-415) -/

/-- Boolean comparison realising Python's ascending tuple comparison of
`Task.sort_key` values (lexicographic on (bool, str, str), with
`False < True`). -/
def sort_key_le (t u : Task) : Bool :=
  decide (toLex (t.sort_key.1, toLex (t.sort_key.2.1, t.sort_key.2.2)) ≤
    toLex (u.sort_key.1, toLex (u.sort_key.2.1, u.sort_key.2.2)))

/-- Boolean comparison realising Python's `sorted(key=Task.sort_date,
reverse=True)`: descending by last-updated timestamp. -/
def sort_date_ge (t u : Task) : Bool :=
  decide (u.sort_date ≤ t.sort_date)

/-- The sorting/filtering step of `print_bugs` (ustriage.py lines 351-355):
blacklisted source packages are dropped, then the list is stably sorted
ascending by `Task.sort_key`, or descending by `Task.sort_date` when
`oder_by_date` (sic) is set. -/
def sortTasks (tasks : List Task) (blacklist : List String)
    (oder_by_date : Bool) : List Task :=
  (tasks.filter (fun t => !blacklist.contains t.src)).mergeSort
    (if oder_by_date then sort_date_ge else sort_key_le)

/-! ## Report renderer output (`print_bugs`, ustriage.py lines 341-415)

Output is modelled as the list of lines passed to `logging.info`, paired
with the exception (if any) aborting the run. The file-persistence and
browser side effects (`handle_files`, `handle_webbrowser`) and the postponed
strikethrough are outside the modelled core. -/

/-- The `'Found %s bugs\n'` line (ustriage.py line 362). -/
def found_line (n : Nat) : String :=
  "Found " ++ toString n ++ " bugs\n"

/-- `truncate_string` (task.py lines 43-49). -/
def truncate_string (text : String) (length : Nat) : String :=
  if text.length > length then (text.take length).dropRight 1 ++ "…"
  else text.take length

/-- `Task.assignee` (task.py lines 197-204): the username part of the
assignee link, or `none` (Python `False`) without one. -/
def Task.assignee (t : Task) : Option String :=
  if t.obj.assignee_link = "" then none
  else some ((py_split t.obj.assignee_link '~').getD 1 "")

/-- `Task.get_header(extended)` (task.py lines 127-143). -/
def Task.get_header (extended : Bool) : String :=
  let text := padRight "Bug" 12 ++ " | " ++ padRight "Flags" 6 ++ " | " ++
    padRight "Release" 7 ++ " | " ++ padRight "Status" 13 ++ " | " ++
    padRight "Package" 19 ++ " |"
  let text := if extended then
      text ++ " " ++ padRight "Last Upd" 8 ++ " | " ++ padRight "Prio" 10 ++
        " | " ++ padRight "Assignee" 13 ++ " |"
    else text
  text ++ " " ++ padRight "Title" 70 ++ " |"

/-- `Task.compose_dup` (task.py lines 360-368). -/
def Task.compose_dup (t : Task) (extended : Bool) : String :=
  let text := t.obj.status ++ "," ++ truncate_string t.src 16
  match extended, t.assignee with
  | true, some a => text ++ "," ++ truncate_string a 9
  | _, _ => text

/-- Keyword parameters of `Task.compose_pretty` (task.py line 326):
`def compose_pretty(self, shortlinks=True, extended=False, newbug=False)`. -/
def compose_pretty_params : List String :=
  ["shortlinks", "extended", "newbug"]

/-- Keyword arguments of the `task.compose_pretty(...)` call inside
`print_bugs` (ustriage.py lines 400-403). -/
def compose_pretty_call_kwargs : List String :=
  ["shortlinks", "extended", "newbug", "open_bug_statuses"]

/-- Python call semantics for the `print_bugs` call site: the keyword
arguments are bound against the callee's parameters before the body runs,
and an unexpected keyword argument raises `TypeError`. The body of
`compose_pretty`, which this call site can never reach, is abstracted by the
`render` argument. -/
def call_compose_pretty (render : Task → String) (t : Task) : Except PyErr String :=
  if compose_pretty_call_kwargs.all (fun k => compose_pretty_params.contains k)
  then .ok (render t)
  else .error PyErr.typeError

/-- The per-task loop of `print_bugs` (ustriage.py lines 385-412):
duplicate bug numbers accumulate an "Also:" continuation that is flushed
before the next full line and at the end of the list; a fresh bug number is
rendered through `compose_pretty`. -/
def print_bugs_loop (render : Task → String) (extended : Bool) :
    List Task → List String → String → List String × Option PyErr
  | [], _, further_tasks =>
    (if further_tasks ≠ "" then [further_tasks] else [], none)
  | t :: rest, reportedbugs, further_tasks =>
    if reportedbugs.contains t.number then
      print_bugs_loop render extended rest reportedbugs
        ((if further_tasks ≠ "" then further_tasks ++ ", " else "Also: ") ++
          "[" ++ t.compose_dup extended ++ "]")
    else
      let pre := if further_tasks ≠ "" then [further_tasks] else []
      match call_compose_pretty render t with
      | .error e => (pre, some e)
      | .ok line =>
        match print_bugs_loop render extended rest
            (reportedbugs ++ [t.number]) "" with
        | (ls, err) => (pre ++ line :: ls, err)

/-- The recursive sub-report calls of `print_bugs` (is_sorted=True,
limit_subscribed=None): count line, early return on empty, header, then the
per-task loop. -/
def print_bugs_nolimit (render : Task → String) (extended : Bool)
    (tasks : List Task) : List String × Option PyErr :=
  if tasks.length = 0 then ([found_line tasks.length], none)
  else
    match print_bugs_loop render extended tasks [] "" with
    | (ls, err) => (found_line tasks.length :: Task.get_header extended :: ls, err)

/-- Python `xs[-l:]`: the last `l` elements for `l ≥ 1`, but the whole list
when `l = 0` (because `-0 == 0`). -/
def pyNegSlice (xs : List α) (l : Nat) : List α :=
  if l = 0 then xs else xs.drop (xs.length - l)

/-- The post-filter/post-sort task collection `sorted_filtered_tasks` of
`print_bugs` (ustriage.py lines 348-355). -/
def sorted_filtered_tasks (tasks : List Task) (blacklist : List String)
    (oder_by_date : Bool) (is_sorted : Bool) : List Task :=
  if is_sorted then tasks else sortTasks tasks blacklist oder_by_date

/-- `print_bugs` (ustriage.py lines 341-415): filter and sort, print the
count, return early when empty, print the header, then either split into the
top/bottom sub-reports (when the configured limit is exceeded) or run the
per-task loop. An exception raised inside aborts the remaining output. -/
def print_bugs (render : Task → String) (tasks : List Task)
    (blacklist : List String) (limit_subscribed : Option Nat)
    (oder_by_date : Bool) (is_sorted : Bool) (extended : Bool) :
    List String × Option PyErr :=
  let sft := sorted_filtered_tasks tasks blacklist oder_by_date is_sorted
  if sft.length = 0 then ([found_line sft.length], none)
  else
    match limit_subscribed with
    | some l =>
      if sft.length > l then
        let pre := [found_line sft.length, Task.get_header extended,
          "Displaying top & bottom " ++ toString l, "# Recent tasks #"]
        match print_bugs_nolimit render extended (sft.take l) with
        | (ls1, some e) => (pre ++ ls1, some e)
        | (ls1, none) =>
          match print_bugs_nolimit render extended (pyNegSlice sft l) with
          | (ls2, err) =>
            (pre ++ ls1 ++
              ["---------------------------------------------------",
               "# Oldest tasks #"] ++ ls2, err)
      else
        match print_bugs_loop render extended sft [] "" with
        | (ls, err) =>
          (found_line sft.length :: Task.get_header extended :: ls, err)
    | none =>
      match print_bugs_loop render extended sft [] "" with
      | (ls, err) =>
        (found_line sft.length :: Task.get_header extended :: ls, err)

/-- A minimal concrete task (bug 1, package foo, last activity not ours). -/
def c1_task : Task :=
  { obj := { self_link := "https://api.launchpad.net/devel/ubuntu/+source/foo/+bug/1",
             title := "Bug #1 in foo (Ubuntu): \x22t\x22",
             status := "New",
             date_last_updated := 5,
             assignee_link := "",
             messages := [],
             bug_tasks := [] },
    subscribed := false,
    last_activity_ours := false }

/-- A task with `last_activity_ours` set (bug 2, package bar). -/
def c9_task_ours : Task :=
  { obj := { self_link := "https://api.launchpad.net/devel/ubuntu/+source/bar/+bug/2",
             title := "Bug #2 in bar (Ubuntu): \x22u\x22",
             status := "New",
             date_last_updated := 9,
             assignee_link := "",
             messages := [],
             bug_tasks := [] },
    subscribed := false,
    last_activity_ours := true }

end Ustriage

namespace Ustriage

/-- C3: for every weekday keyword other than Saturday and Sunday, applying
`reverse_auto_date_range` to the range returned by
`auto_date_range(keyword, today)` yields `"<Weekday> triage"` for the
corresponding weekday, for every `today`. -/
theorem auto_reverse_roundtrip (keyword : String) (w today : Int)
    (hk : parse_weekday keyword = some w) (h0 : 0 ≤ w) (h4 : w ≤ 4) :
    ∃ s e, auto_date_range keyword today = Except.ok (s, e) ∧
      reverse_auto_date_range s e = some (weekday_label w ++ " triage") := by
  have hw : w = 0 ∨ w = 1 ∨ w = 2 ∨ w = 3 ∨ w = 4 := by omega
  have hlom : (today - (today - w) % 7) % 7 = w := by omega
  set lo := today - (today - w) % 7 with hlo
  rcases hw with h | h | h | h | h
  · -- Monday keyword: "weekend" triage, Friday .. Sunday
    subst h
    refine ⟨lo - 3, lo - 1, ?_, ?_⟩
    · unfold auto_date_range
      rw [hk]
      simp only [← hlo]
      rw [if_neg (by omega), if_neg (by simp [weekday]; omega)]
      simp only [Except.ok.injEq, Prod.mk.injEq]
      constructor <;> omega
    · unfold reverse_auto_date_range
      rw [if_neg (by omega), if_neg (by omega),
        if_pos (show weekday (lo - 3) = 4 ∧ weekday (lo - 1) = 6 by
          constructor <;> · simp only [weekday]; omega)]
      rfl
  · -- Tuesday keyword: single day, previous Monday
    subst h
    refine ⟨lo - 1, lo - 1, ?_, ?_⟩
    · unfold auto_date_range
      rw [hk]
      simp only [← hlo]
      rw [if_neg (by omega), if_pos (by simp [weekday]; omega)]
    · have hsw : weekday (lo - 1) = 0 := by simp only [weekday]; omega
      unfold reverse_auto_date_range
      rw [if_neg (by omega), if_neg (by omega), if_neg (by omega),
        if_pos rfl, if_neg (by omega), hsw]
      rfl
  · -- Wednesday keyword: single day, previous Tuesday
    subst h
    refine ⟨lo - 1, lo - 1, ?_, ?_⟩
    · unfold auto_date_range
      rw [hk]
      simp only [← hlo]
      rw [if_neg (by omega), if_pos (by simp [weekday]; omega)]
    · have hsw : weekday (lo - 1) = 1 := by simp only [weekday]; omega
      unfold reverse_auto_date_range
      rw [if_neg (by omega), if_neg (by omega), if_neg (by omega),
        if_pos rfl, if_neg (by omega), hsw]
      rfl
  · -- Thursday keyword: single day, previous Wednesday
    subst h
    refine ⟨lo - 1, lo - 1, ?_, ?_⟩
    · unfold auto_date_range
      rw [hk]
      simp only [← hlo]
      rw [if_neg (by omega), if_pos (by simp [weekday]; omega)]
    · have hsw : weekday (lo - 1) = 2 := by simp only [weekday]; omega
      unfold reverse_auto_date_range
      rw [if_neg (by omega), if_neg (by omega), if_neg (by omega),
        if_pos rfl, if_neg (by omega), hsw]
      rfl
  · -- Friday keyword: single day, previous Thursday
    subst h
    refine ⟨lo - 1, lo - 1, ?_, ?_⟩
    · unfold auto_date_range
      rw [hk]
      simp only [← hlo]
      rw [if_neg (by omega), if_pos (by simp [weekday]; omega)]
    · have hsw : weekday (lo - 1) = 3 := by simp only [weekday]; omega
      unfold reverse_auto_date_range
      rw [if_neg (by omega), if_neg (by omega), if_neg (by omega),
        if_pos rfl, if_neg (by omega), hsw]
      rfl

/-- C3 witness: the round trip at the keyword "tue" with `today` a Tuesday
(day 8 of the embedding, e.g. 2019-05-14) yields "Tuesday triage". -/
theorem auto_reverse_roundtrip_witness :
    parse_weekday "tue" = some 1 ∧ (0 : Int) ≤ 1 ∧ (1 : Int) ≤ 4 ∧
    (∃ s e, auto_date_range "tue" 8 = Except.ok (s, e) ∧
      reverse_auto_date_range s e = some (weekday_label 1 ++ " triage")) :=
  ⟨by decide, by decide, by decide,
    auto_reverse_roundtrip "tue" 1 8 (by decide) (by decide) (by decide)⟩

/-- C7: for every `today`, `auto_date_range` applied to a Saturday or Sunday
keyword fails with the `ValueError` that `parse_dates` surfaces as an invalid
date range; it never returns a range. -/
theorem auto_date_range_weekend_error (today : Int) :
    auto_date_range "sat" today =
      Except.error "No triage range is specified for weekday triage" ∧
    auto_date_range "sun" today =
      Except.error "No triage range is specified for weekday triage" ∧
    auto_date_range "saturday" today =
      Except.error "No triage range is specified for weekday triage" ∧
    auto_date_range "sunday" today =
      Except.error "No triage range is specified for weekday triage" :=
  ⟨rfl, rfl, rfl, rfl⟩

/-- C6 counterexample: a single-day range on a Tuesday (day 1 of the
embedding, e.g. 2019-05-07) gets the non-None label "Wednesday triage"
although its start weekday is neither Friday (4), Saturday (5), Sunday (6)
nor Monday (0), refuting the claimed "starts on Friday, Saturday, Sunday or
Monday" shape. -/
theorem reverse_range_tuesday_counterexample :
    reverse_auto_date_range 1 1 = some "Wednesday triage" ∧
    weekday 1 = 1 ∧
    weekday 1 ≠ 4 ∧ weekday 1 ≠ 5 ∧ weekday 1 ≠ 6 ∧ weekday 1 ≠ 0 := by
  refine ⟨rfl, by decide, by decide, by decide, by decide, by decide⟩

/-- C6 amended: `reverse_auto_date_range` produces a non-None label only for
a forward range of span at most 2 days that is either a Friday-to-Sunday
weekend range or a single day falling on Monday through Thursday. -/
theorem reverse_range_shape (s e : Int)
    (h : reverse_auto_date_range s e ≠ none) :
    s ≤ e ∧ e - s ≤ 2 ∧
      ((weekday s = 4 ∧ weekday e = 6) ∨
        (s = e ∧ 0 ≤ weekday s ∧ weekday s ≤ 3)) := by
  unfold reverse_auto_date_range at h
  split_ifs at h with h1 h2 h3 h4 h5
  · exact absurd rfl h
  · exact absurd rfl h
  · exact ⟨by omega, by omega, Or.inl h3⟩
  · exact absurd rfl h
  · have h5' : ¬(s % 7 = 4 ∨ s % 7 = 5 ∨ s % 7 = 6) := by
      simpa only [weekday] using h5
    refine ⟨by omega, by omega, Or.inr ⟨h4, ?_, ?_⟩⟩ <;>
      · simp only [weekday]; omega
  · exact absurd rfl h

/-- C6 amended witness: the single-day Tuesday range (day 1) has a non-None
label and indeed satisfies the amended shape. -/
theorem reverse_range_shape_witness :
    reverse_auto_date_range 1 1 ≠ none ∧
      ((1 : Int) ≤ 1 ∧ (1 : Int) - 1 ≤ 2 ∧
        ((weekday 1 = 4 ∧ weekday 1 = 6) ∨
          ((1 : Int) = 1 ∧ 0 ≤ weekday 1 ∧ weekday 1 ≤ 3))) :=
  ⟨by decide, reverse_range_shape 1 1 (by decide)⟩

/-- Membership in a `contains` check over a list of strings. -/
theorem string_contains_iff (l : List String) (a : String) :
    l.contains a = true ↔ a ∈ l := by
  simp [List.contains, List.elem_iff]

/-- In a list sorted by descending timestamp, every member above the
threshold is kept by the `takeWhile` that stops at the first entry below
the threshold. -/
theorem mem_takeWhile_of_sorted_ge (thr : Int) :
    ∀ l : List (Int × String), l.Pairwise (fun a b => b.1 ≤ a.1) →
      ∀ x ∈ l, thr ≤ x.1 → x ∈ l.takeWhile (fun a => !decide (a.1 < thr))
  | [], _, x, hx, _ => absurd hx (List.not_mem_nil x)
  | a :: t, hp, x, hx, hpx => by
      rcases List.pairwise_cons.mp hp with ⟨ha, ht⟩
      by_cases hat : a.1 < thr
      · rcases List.mem_cons.mp hx with rfl | hxt
        · omega
        · have := ha x hxt
          omega
      · rw [List.takeWhile_cons_of_pos (by simp [hat])]
        rcases List.mem_cons.mp hx with rfl | hxt
        · exact List.mem_cons_self _ _
        · exact List.mem_cons_of_mem _ (mem_takeWhile_of_sorted_ge thr t ht x hxt hpx)

/-- C4 counterexample: on the three-message history `c4_msgs` with identity
set `{"us"}`, the code's fixed one-hour window from the anchor excludes the
outsider message at time 0 and reports `true`, while the claimed contiguous
accretion includes it (0 is within one hour of 55) and would report
`false`. -/
theorem last_activity_burst_counterexample :
    last_activity_ours c4_msgs ["us"] = Except.ok true ∧
    last_activity_ours_spec c4_msgs ["us"] = false := by
  constructor <;> rfl

/-- C4 amended: on a message window whose usable activities are sorted by
creation time, `last_activity_ours` reports `true` exactly when every
activity whose timestamp is within one hour of the most recent activity (a
fixed window anchored at the most recent message, accreted back-to-front)
belongs to the identity set; and an empty identity set always gives
`false`. -/
theorem last_activity_fixed_window (msgs : List Message) (subs : List String)
    (hsubs : subs ≠ [])
    (hsorted : (activity_list msgs).Pairwise (fun a b => a.1 ≤ b.1))
    (l : List (Int × String)) (anchor : Int × String)
    (hacts : activity_list msgs = l ++ [anchor]) :
    (last_activity_ours msgs subs = Except.ok true ↔
      ∀ a ∈ activity_list msgs, anchor.1 - 60 ≤ a.1 → a.2 ∈ subs) ∧
    (∀ ms : List Message, last_activity_ours ms [] = Except.ok false) := by
  refine ⟨?_, fun ms => rfl⟩
  have hemp : subs.isEmpty = false := by
    cases subs with
    | nil => exact absurd rfl hsubs
    | cons a t => rfl
  rw [hacts] at hsorted
  have hl : l.Pairwise (fun a b : Int × String => a.1 ≤ b.1) :=
    hsorted.sublist (List.sublist_append_left l [anchor])
  have hlrev : l.reverse.Pairwise (fun a b : Int × String => b.1 ≤ a.1) :=
    List.pairwise_reverse.mpr hl
  unfold last_activity_ours
  rw [hemp]
  simp only [Bool.false_eq_true, if_false, hacts, List.getLast?_concat,
    List.dropLast_concat]
  rw [show (∀ a ∈ l ++ [anchor], anchor.1 - 60 ≤ a.1 → a.2 ∈ subs) ↔
      (∀ a ∈ anchor :: l.reverse.takeWhile
        (fun a => !decide (a.1 < anchor.1 - 60)), subs.contains a.2 = true) from ?_]
  · constructor
    · intro h
      simpa [List.all_eq_true] using h
    · intro h
      simp only [Except.ok.injEq]
      rw [List.all_eq_true]
      exact h
  · constructor
    · intro h x hx
      rcases List.mem_cons.mp hx with rfl | hxt
      · exact (string_contains_iff subs x.2).mpr
          (h x (by simp) (by omega))
      · have hpx : anchor.1 - 60 ≤ x.1 := by
          have := List.mem_takeWhile_imp hxt
          simp only [Bool.not_eq_true', decide_eq_false_iff_not, not_lt] at this
          omega
        have hxl : x ∈ l := List.mem_reverse.mp
          ((List.takeWhile_sublist _).subset hxt)
        exact (string_contains_iff subs x.2).mpr
          (h x (List.mem_append.mpr (Or.inl hxl)) hpx)
    · intro h a ha hthr
      rcases List.mem_append.mp ha with hal | haa
      · have : a ∈ l.reverse.takeWhile
            (fun a => !decide (a.1 < anchor.1 - 60)) :=
          mem_takeWhile_of_sorted_ge _ l.reverse hlrev a
            (List.mem_reverse.mpr hal) hthr
        exact (string_contains_iff subs a.2).mp (h a (List.mem_cons_of_mem _ this))
      · rw [List.mem_singleton.mp haa]
        exact (string_contains_iff subs anchor.2).mp (h anchor (List.mem_cons_self _ _))

/-- C4 amended witness: the amended characterisation applied to the
single-message history `c4_single` and the identity set `{"us"}`. -/
theorem last_activity_fixed_window_witness :
    (["us"] : List String) ≠ [] ∧
    (activity_list c4_single).Pairwise (fun a b => a.1 ≤ b.1) ∧
    activity_list c4_single = [] ++ [((0 : Int), "us")] ∧
    ((last_activity_ours c4_single ["us"] = Except.ok true ↔
        ∀ a ∈ activity_list c4_single,
          (((0 : Int), ("us" : String))).1 - 60 ≤ a.1 → a.2 ∈ ["us"]) ∧
      (∀ ms : List Message, last_activity_ours ms [] = Except.ok false)) := by
  have h1 : (["us"] : List String) ≠ [] := by simp
  have h2 : (activity_list c4_single).Pairwise
      (fun a b : Int × String => a.1 ≤ b.1) := by
    rw [show activity_list c4_single = [((0 : Int), "us")] from rfl]
    exact List.pairwise_singleton _ _
  have h3 : activity_list c4_single = [] ++ [((0 : Int), "us")] := rfl
  exact ⟨h1, h2, h3,
    last_activity_fixed_window c4_single ["us"] h1 h2 [] ((0 : Int), "us") h3⟩

/-- C10: when the identity set is non-empty and the inspected window yields
no usable entries (no messages at all, or every message in the last-three
window has an owner whose account resolution fails), `last_activity_ours`
raises `IndexError` from popping the empty activity list. -/
theorem last_activity_empty_pop_error (msgs : List Message) (subs : List String)
    (hsubs : subs ≠ [])
    (h : msgs = [] ∨ ∀ m ∈ activity_window msgs, m.owner_gone = true) :
    last_activity_ours msgs subs = Except.error PyErr.indexError := by
  have hemp : subs.isEmpty = false := by
    cases subs with
    | nil => exact absurd rfl hsubs
    | cons a t => rfl
  have hnil : activity_list msgs = [] := by
    rcases h with rfl | h
    · rfl
    · unfold activity_list
      rw [List.filterMap_eq_nil_iff]
      intro m hm
      rw [h m hm]
      rfl
  unfold last_activity_ours
  rw [hemp]
  simp only [Bool.false_eq_true, if_false, hnil, List.getLast?_nil]

/-- C10 witness: a bug with zero messages and our non-empty identity set. -/
theorem last_activity_empty_pop_error_witness :
    (["us"] : List String) ≠ [] ∧
    last_activity_ours [] ["us"] = Except.error PyErr.indexError :=
  ⟨by simp, last_activity_empty_pop_error [] ["us"] (by simp) (Or.inl rfl)⟩

/-- C2: an identifier is a key of the date-bounded delta `bugs_in_range A B`
exactly when it is a key of the since-start snapshot `A` and not a key of
the since-end snapshot `B`; in particular no key of `B` ever appears. -/
theorem bugs_in_range_membership (A B : List (String × LPTask)) (k : String) :
    k ∈ (bugs_in_range A B).map Prod.fst ↔
      k ∈ A.map Prod.fst ∧ k ∉ B.map Prod.fst := by
  constructor
  · intro hk
    rcases List.mem_map.mp hk with ⟨p, hp, hpk⟩
    rcases List.mem_filter.mp hp with ⟨hpA, hcond⟩
    simp only [Bool.not_eq_true', ← Bool.not_eq_true] at hcond
    refine ⟨List.mem_map.mpr ⟨p, hpA, hpk⟩, fun hkB => ?_⟩
    rw [← hpk] at hkB
    exact hcond ((string_contains_iff _ _).mpr hkB)
  · intro ⟨hkA, hkB⟩
    rcases List.mem_map.mp hkA with ⟨p, hpA, hpk⟩
    refine List.mem_map.mpr ⟨p, List.mem_filter.mpr ⟨hpA, ?_⟩, hpk⟩
    simp only [Bool.not_eq_true', ← Bool.not_eq_true]
    intro hc
    exact hkB (hpk ▸ (string_contains_iff _ _).mp hc)

/-- Results of two `build_tasks` runs differing only in the
already-subscribed dict agree after any projection that ignores the
`subscribed` field. -/
theorem build_tasks_congr (f : Task → α)
    (hf : ∀ o b b' lao, f { obj := o, subscribed := b, last_activity_ours := lao }
      = f { obj := o, subscribed := b', last_activity_ours := lao })
    (S S' : List (String × LPTask)) (subs : List String) :
    ∀ l : List (String × LPTask),
      Except.map (List.map f) (build_tasks S subs l) =
        Except.map (List.map f) (build_tasks S' subs l)
  | [] => rfl
  | p :: rest => by
    unfold build_tasks
    cases last_activity_ours p.2.messages subs with
    | error e => rfl
    | ok lao =>
      have ih := build_tasks_congr f hf S S' subs rest
      cases hS : build_tasks S subs rest with
      | error e =>
        rw [hS] at ih
        cases hS' : build_tasks S' subs rest with
        | error e' =>
          rw [hS'] at ih
          simpa using ih
        | ok ts' =>
          rw [hS'] at ih
          simp [Except.map] at ih
      | ok ts =>
        rw [hS] at ih
        cases hS' : build_tasks S' subs rest with
        | error e' =>
          rw [hS'] at ih
          simp [Except.map] at ih
        | ok ts' =>
          rw [hS'] at ih
          simp only [Except.map, List.map_cons, Except.ok.injEq] at ih ⊢
          rw [hf p.2 ((S.map Prod.fst).contains p.1) ((S'.map Prod.fst).contains p.1) lao, ih]

/-- C8: in the date-bounded branch of `create_bug_list`, the independently
fetched already-subscribed-since-start set `S` influences only the
`subscribed` annotation: two runs with the same since-start and since-end
snapshots but different `S` produce task lists that are identical after
forgetting the `subscribed` flags, and in particular identical lists of
identifiers. -/
theorem subscribed_set_noninterference (A B S S' : List (String × LPTask))
    (subs : List String) :
    Except.map (List.map erase_subscribed) (create_bug_list_range A B S subs) =
      Except.map (List.map erase_subscribed) (create_bug_list_range A B S' subs) ∧
    Except.map (List.map (fun t => t.obj.self_link)) (create_bug_list_range A B S subs) =
      Except.map (List.map (fun t => t.obj.self_link)) (create_bug_list_range A B S' subs) :=
  ⟨build_tasks_congr erase_subscribed (fun _ _ _ _ => rfl) S S' subs (bugs_in_range A B),
   build_tasks_congr (fun t => t.obj.self_link) (fun _ _ _ _ => rfl) S S' subs
     (bugs_in_range A B)⟩

/-- C5 (evidence for the code bug): on a bug whose only matching sub-task is
the development-series task in the open status "New", `get_releases` emits
the uppercase character 'D' (padded to width 6) although the status is open
and not closed/terminal, because the code uppercases every release character
unconditionally; whichever answer the unapproved-upload oracle would give is
irrelevant here. -/
theorem get_releases_uppercase_open_status (unapproved : String → Bool) :
    Task.get_releases c5_task unapproved 6 = "D     " ∧
    c5_sub.status ∈ OPEN_BUG_STATUSES ∧
    c5_sub.status ∉ Task.NOWORK_BUG_STATUSES ∧
    (Task.get_releases c5_task unapproved 6).front.isUpper = true := by
  have h : Task.get_releases c5_task unapproved 6 = "D     " := rfl
  exact ⟨h, by decide, by decide, by rw [h]; decide⟩

/-- Transitivity of the ascending `sort_key` comparison. -/
theorem sort_key_le_trans (a b c : Task) (h1 : sort_key_le a b = true)
    (h2 : sort_key_le b c = true) : sort_key_le a c = true := by
  simp only [sort_key_le, decide_eq_true_eq] at h1 h2 ⊢
  exact le_trans h1 h2

/-- Totality of the ascending `sort_key` comparison. -/
theorem sort_key_le_total (a b : Task) :
    (sort_key_le a b || sort_key_le b a) = true := by
  simp only [sort_key_le, Bool.or_eq_true, decide_eq_true_eq]
  exact le_total _ _

/-- Transitivity of the descending `sort_date` comparison. -/
theorem sort_date_ge_trans (a b c : Task) (h1 : sort_date_ge a b = true)
    (h2 : sort_date_ge b c = true) : sort_date_ge a c = true := by
  simp only [sort_date_ge, decide_eq_true_eq] at h1 h2 ⊢
  exact le_trans h2 h1

/-- Totality of the descending `sort_date` comparison. -/
theorem sort_date_ge_total (a b : Task) :
    (sort_date_ge a b || sort_date_ge b a) = true := by
  simp only [sort_date_ge, Bool.or_eq_true, decide_eq_true_eq]
  exact (le_total _ _).symm.imp id id

/-- C9: by default `print_bugs` sorts ascending by the key
`(not last_activity_ours, number, src)`, so in the sorted output a task with
`last_activity_ours = true` never follows one with it `false`; with the
date-ordering option the output is sorted descending by the last-updated
timestamp instead. -/
theorem print_bugs_sort_order (tasks : List Task) (blacklist : List String) :
    (sortTasks tasks blacklist false).Pairwise (fun a b => sort_key_le a b = true) ∧
    (∀ i j : Fin (sortTasks tasks blacklist false).length, i < j →
      ((sortTasks tasks blacklist false).get i).last_activity_ours = false →
      ((sortTasks tasks blacklist false).get j).last_activity_ours = false) ∧
    (sortTasks tasks blacklist true).Pairwise
      (fun a b => b.sort_date ≤ a.sort_date) := by
  have hkey : (sortTasks tasks blacklist false).Pairwise
      (fun a b => sort_key_le a b = true) := by
    unfold sortTasks
    simp only [Bool.false_eq_true, if_false]
    exact List.sorted_mergeSort sort_key_le_trans sort_key_le_total _
  refine ⟨hkey, ?_, ?_⟩
  · intro i j hij hi
    have hp := (List.pairwise_iff_get.mp hkey) i j hij
    simp only [sort_key_le, Task.sort_key, decide_eq_true_eq] at hp
    rw [Prod.Lex.le_iff] at hp
    rcases hp with hlt | ⟨heq, _⟩
    · rw [hi] at hlt
      simp [Bool.lt_iff] at hlt
    · cases htj : ((sortTasks tasks blacklist false).get j).last_activity_ours
      · rfl
      · rw [hi, htj] at heq
        simp at heq
  · unfold sortTasks
    simp only [if_true]
    exact (List.sorted_mergeSort sort_date_ge_trans sort_date_ge_total _).imp
      (fun h => of_decide_eq_true h)

/-- C9 witness: the sort-order properties at a concrete two-task list, one
task with our last activity and one without. -/
theorem print_bugs_sort_order_witness :
    (sortTasks [c1_task, c9_task_ours] [] false).Pairwise
      (fun a b => sort_key_le a b = true) ∧
    (∀ i j : Fin (sortTasks [c1_task, c9_task_ours] [] false).length, i < j →
      ((sortTasks [c1_task, c9_task_ours] [] false).get i).last_activity_ours = false →
      ((sortTasks [c1_task, c9_task_ours] [] false).get j).last_activity_ours = false) ∧
    (sortTasks [c1_task, c9_task_ours] [] true).Pairwise
      (fun a b => b.sort_date ≤ a.sort_date) :=
  print_bugs_sort_order [c1_task, c9_task_ours] []

/-- The per-task loop fails with `TypeError` on its first fresh task,
emitting nothing. -/
theorem print_bugs_loop_head_error (render : Task → String) (extended : Bool)
    (t : Task) (rest : List Task) :
    print_bugs_loop render extended (t :: rest) [] "" =
      ([], some PyErr.typeError) := rfl

/-- A non-empty sub-report emits its count line and header, then fails with
`TypeError`. -/
theorem print_bugs_nolimit_cons (render : Task → String) (extended : Bool)
    (t : Task) (rest : List Task) :
    print_bugs_nolimit render extended (t :: rest) =
      ([found_line (t :: rest).length, Task.get_header extended],
        some PyErr.typeError) := by
  unfold print_bugs_nolimit
  rw [if_neg (by simp), print_bugs_loop_head_error]

/-- C1: whenever the post-filter/post-sort task collection is non-empty,
`print_bugs` raises `TypeError` (from passing the unexpected
`open_bug_statuses` keyword argument to `Task.compose_pretty`) before
printing any bug line: without a limit only the count line and the header
are emitted, and when the top/bottom-`l` split is taken the recursive
sub-report likewise emits only its count line and header before failing. -/
theorem print_bugs_type_error (render : Task → String) (tasks : List Task)
    (blacklist : List String) (limit_subscribed : Option Nat)
    (oder_by_date is_sorted extended : Bool)
    (h : sorted_filtered_tasks tasks blacklist oder_by_date is_sorted ≠ []) :
    (print_bugs render tasks blacklist limit_subscribed oder_by_date
        is_sorted extended).2 = some PyErr.typeError ∧
    (limit_subscribed = none →
      (print_bugs render tasks blacklist limit_subscribed oder_by_date
          is_sorted extended).1 =
        [found_line (sorted_filtered_tasks tasks blacklist oder_by_date
            is_sorted).length,
         Task.get_header extended]) ∧
    (∀ l : Nat, limit_subscribed = some l → 1 ≤ l →
      l < (sorted_filtered_tasks tasks blacklist oder_by_date is_sorted).length →
      (print_bugs render tasks blacklist limit_subscribed oder_by_date
          is_sorted extended).1 =
        [found_line (sorted_filtered_tasks tasks blacklist oder_by_date
            is_sorted).length,
         Task.get_header extended,
         "Displaying top & bottom " ++ toString l, "# Recent tasks #",
         found_line l, Task.get_header extended]) := by
  rcases List.exists_cons_of_ne_nil h with ⟨t, rest, hL⟩
  refine ⟨?_, ?_, ?_⟩
  · simp only [print_bugs, hL]
    rw [if_neg (by simp)]
    cases limit_subscribed with
    | none => rw [print_bugs_loop_head_error]
    | some l =>
      dsimp only
      by_cases hl : (t :: rest).length > l
      · rw [if_pos hl]
        cases l with
        | zero =>
          rw [show (t :: rest).take 0 = [] from rfl,
            show print_bugs_nolimit render extended [] =
              ([found_line 0], none) from rfl,
            show pyNegSlice (t :: rest) 0 = t :: rest from rfl,
            print_bugs_nolimit_cons]
        | succ m =>
          rw [List.take_succ_cons, print_bugs_nolimit_cons]
      · rw [if_neg hl, print_bugs_loop_head_error]
  · intro hnone
    subst hnone
    simp only [print_bugs, hL]
    rw [if_neg (by simp), print_bugs_loop_head_error]
  · intro l hsome h1 hlt
    subst hsome
    rw [hL] at hlt
    simp only [print_bugs, hL]
    rw [if_neg (by simp), if_pos (by simpa using hlt)]
    cases l with
    | zero => omega
    | succ m =>
      have hm : m ≤ rest.length := by
        simp only [List.length_cons] at hlt
        omega
      rw [List.take_succ_cons, print_bugs_nolimit_cons,
        show (t :: rest.take m).length = m + 1 by
          simp only [List.length_cons, List.length_take]
          omega]
      rfl

/-- C1 witness: the failure at a concrete pre-sorted single-task list. -/
theorem print_bugs_type_error_witness :
    sorted_filtered_tasks [c1_task] [] false true ≠ [] ∧
    ((print_bugs (fun _ => "") [c1_task] [] none false true false).2 =
        some PyErr.typeError ∧
      ((none : Option Nat) = none →
        (print_bugs (fun _ => "") [c1_task] [] none false true false).1 =
          [found_line (sorted_filtered_tasks [c1_task] [] false true).length,
           Task.get_header false]) ∧
      (∀ l : Nat, (none : Option Nat) = some l → 1 ≤ l →
        l < (sorted_filtered_tasks [c1_task] [] false true).length →
        (print_bugs (fun _ => "") [c1_task] [] none false true false).1 =
          [found_line (sorted_filtered_tasks [c1_task] [] false true).length,
           Task.get_header false,
           "Displaying top & bottom " ++ toString l, "# Recent tasks #",
           found_line l, Task.get_header false])) :=
  ⟨by decide,
    print_bugs_type_error (fun _ => "") [c1_task] [] none false true false (by decide)⟩

end Ustriage
